import Mathlib

/-!
Shallow embedding of the wave-simulation engine (`src/simulation.rs`), the
pipeline registry (`src/renderer/pipelines.rs`), the surface mesh generator
(`src/renderer/surface.rs`) and the frame orchestration
(`src/renderer/mod.rs`, `src/application.rs`), together with proofs about
the spec's claims on them.

Machine floats (`f32`) are modelled by exact rationals; every theorem that
relies on this only evaluates the arithmetic at points where the `f32`
computation is exact (small integers, quarters, divisions by 16).
-/

namespace WaveSim

/-- Identity of one of the two simulation grid textures (`texture_a` / `texture_b`). -/
inductive GridId
  | a
  | b
deriving DecidableEq, Repr

/-- Texture formats appearing in the program. -/
inductive TexFormat
  | rg32Float
  | depth32Float
  | bgra8Unorm
deriving DecidableEq, Repr

/-- A GPU texture as the simulation sees it: which grid it is, its
dimensions in texels, and its format. -/
structure Texture where
  grid : GridId
  width : Nat
  height : Nat
  format : TexFormat
deriving DecidableEq, Repr

/-- The constant `SIMULATION_LENGTH` from `simulation.rs`. -/
def SIMULATION_LENGTH : ℚ := 5

/-- The constant `SIMULATION_RESOLUTION` from `simulation.rs`. -/
def SIMULATION_RESOLUTION : ℕ := 500

/-- Side length computed in `WaveSimulation::create_compute_texture`:
the expression `(len * res as f32) as u32`. The `as u32` cast truncates
toward zero (and clamps negative values to 0), which for nonnegative
values is the floor. -/
def xzLength (len : ℚ) (res : ℕ) : ℕ := (⌊len * (res : ℚ)⌋).toNat

/-- Body of `WaveSimulation::create_compute_texture`: a square
`Rg32Float` texture of side `xzLength len res` for the given grid. -/
def createComputeTexture (len : ℚ) (res : ℕ) (g : GridId) : Texture :=
  { grid := g
    width := xzLength len res
    height := xzLength len res
    format := TexFormat.rg32Float }

/-- Bind-group layouts referenced anywhere in the program. The first three
are the ones `Pipelines::new` actually creates; the last is the field
`Pipelines::texture_read_write_bind_group_layout` that
`WaveSimulation::create_read_write_bind_group` refers to. -/
inductive LayoutRef
  | cameraBindGroupLayout
  | textureReadBindGroupLayout
  | textureWriteBindGroupLayout
  | textureReadWriteBindGroupLayout
deriving DecidableEq, Repr

/-- A bind group as created by `WaveSimulation::create_read_write_bind_group`:
the layout it is created against, the texture whose view sits in the read
slot (binding 0) and the texture whose view sits in the write slot
(binding 1). -/
structure BindGroup where
  layout : LayoutRef
  read : Texture
  write : Texture
deriving DecidableEq, Repr

/-- Body of `WaveSimulation::create_read_write_bind_group`, with `left`
in the read position and `right` in the write position. -/
def createReadWriteBindGroup (left right : Texture) : BindGroup :=
  { layout := LayoutRef.textureReadWriteBindGroupLayout
    read := left
    write := right }

/-- The state of `WaveSimulation` (`simulation.rs`). -/
structure WaveSimulation where
  active : Nat
  texture_a : Texture
  texture_b : Texture
  a_read_b_write_bind_group : BindGroup
  b_read_a_write_bind_group : BindGroup
deriving DecidableEq, Repr

/-- Body of `WaveSimulation::new`, parametrized by the two configuration
constants it reads (`SIMULATION_LENGTH`, `SIMULATION_RESOLUTION`). -/
def WaveSimulation.new (len : ℚ) (res : ℕ) : WaveSimulation :=
  let texture_a := createComputeTexture len res GridId.a
  let texture_b := createComputeTexture len res GridId.b
  { active := 0
    texture_a := texture_a
    texture_b := texture_b
    a_read_b_write_bind_group := createReadWriteBindGroup texture_a texture_b
    b_read_a_write_bind_group := createReadWriteBindGroup texture_b texture_a }

/-- The simulation engine as constructed by the program, at the shipped
constants. -/
def simNew : WaveSimulation :=
  WaveSimulation.new SIMULATION_LENGTH SIMULATION_RESOLUTION

/-- Body of `WaveSimulation::get_active_texture`. -/
def WaveSimulation.get_active_texture (s : WaveSimulation) : BindGroup :=
  if s.active % 2 = 0 then s.a_read_b_write_bind_group
  else s.b_read_a_write_bind_group

/-- One compute dispatch recorded on a command encoder by
`WaveSimulation::tick`: the bind group set at slot 0 and the workgroup
counts. -/
structure Dispatch where
  bindGroup : BindGroup
  x : Nat
  y : Nat
  z : Nat
deriving DecidableEq, Repr

/-- Workgroup count along one axis, the expression
`(w as f32 / 16.0).ceil() as u32` in `WaveSimulation::tick` (exact in
`f32` for every `w < 2^24`, in particular for the texture sizes here). -/
def workgroupCount (w : Nat) : ℕ := (⌈(w : ℚ) / 16⌉).toNat

/-- Body of `WaveSimulation::tick`: records one compute dispatch on the
encoder, binding the parity-selected bind group at slot 0 with workgroup
counts derived from `texture_a`'s dimensions, then increments `active`. -/
def WaveSimulation.tick (s : WaveSimulation) (encoder : List Dispatch) :
    WaveSimulation × List Dispatch :=
  let active_bind_group :=
    if s.active % 2 = 0 then s.a_read_b_write_bind_group
    else s.b_read_a_write_bind_group
  let x := workgroupCount s.texture_a.width
  let y := workgroupCount s.texture_a.height
  ({ s with active := s.active + 1 },
    encoder ++ [{ bindGroup := active_bind_group, x := x, y := y, z := 1 }])

/-- State of the engine after `n` calls to `tick` (each on a fresh
encoder; the resulting state does not depend on the encoders). -/
def WaveSimulation.tickN (s : WaveSimulation) : Nat → WaveSimulation
  | 0 => s
  | n + 1 => ((s.tickN n).tick []).fst

theorem tickN_spec (s : WaveSimulation) (N : ℕ) :
    s.tickN N = { s with active := s.active + N } := by
  induction N with
  | zero => rfl
  | succ n ih =>
    show ((s.tickN n).tick []).fst = _
    rw [ih]
    rfl

/-- C10: immediately after construction the parity counter is 0,
`get_active_texture` returns the a-read/b-write bind group, and its read
slot holds grid A (`texture_a`), before any dispatch has been recorded. -/
theorem c10_initial_state :
    simNew.active = 0 ∧
    simNew.get_active_texture = simNew.a_read_b_write_bind_group ∧
    simNew.get_active_texture.read.grid = GridId.a ∧
    simNew.get_active_texture.read = simNew.texture_a := by
  refine ⟨rfl, rfl, rfl, rfl⟩

/-- C1: after N ticks on a freshly initialized engine the active bind
group is the a-read/b-write one exactly when N is even, the read-slot
grid is A for even N and B for odd N, and the selection depends only on
the parity of N. -/
theorem c1_active_binding_parity (len : ℚ) (res : ℕ) (N : ℕ) :
    ((WaveSimulation.new len res).tickN N).get_active_texture =
      (if N % 2 = 0 then (WaveSimulation.new len res).a_read_b_write_bind_group
        else (WaveSimulation.new len res).b_read_a_write_bind_group) ∧
    ((WaveSimulation.new len res).tickN N).get_active_texture.read.grid =
      (if N % 2 = 0 then GridId.a else GridId.b) ∧
    ((WaveSimulation.new len res).tickN N).get_active_texture =
      ((WaveSimulation.new len res).tickN (N % 2)).get_active_texture := by
  have hmod : N % 2 % 2 = N % 2 := Nat.mod_mod_of_dvd N (dvd_refl 2)
  refine ⟨?_, ?_, ?_⟩ <;>
    by_cases hN : N % 2 = 0 <;>
      simp [WaveSimulation.get_active_texture, tickN_spec, WaveSimulation.new,
        createReadWriteBindGroup, createComputeTexture, hN, hmod]

theorem xzLength_eq (len : ℚ) (res n : ℕ) (h : len * (res : ℚ) = (n : ℚ)) :
    xzLength len res = n := by
  rw [xzLength, h, Int.floor_natCast, Int.toNat_natCast]

/-- C2: one tick appends exactly one dispatch, and afterwards the read
slot of the active bind group holds exactly the texture that this
dispatch's bind group had in its write slot (the grid holding the most
recently computed state). -/
theorem c2_active_after_tick_is_last_write (len : ℚ) (res : ℕ) (n : ℕ)
    (e : List Dispatch) :
    ∃ d : Dispatch,
      (((WaveSimulation.new len res).tickN n).tick e).snd = e ++ [d] ∧
      ((((WaveSimulation.new len res).tickN n).tick e).fst.get_active_texture).read =
        d.bindGroup.write := by
  refine ⟨_, rfl, ?_⟩
  by_cases hn : n % 2 = 0
  · have h1 : (n + 1) % 2 = 1 := by omega
    simp [WaveSimulation.tick, WaveSimulation.get_active_texture, tickN_spec,
      WaveSimulation.new, createReadWriteBindGroup, createComputeTexture, hn, h1]
  · have h1 : (n + 1) % 2 = 0 := by omega
    simp [WaveSimulation.tick, WaveSimulation.get_active_texture, tickN_spec,
      WaveSimulation.new, createReadWriteBindGroup, createComputeTexture, hn, h1]

theorem workgroupCount_eq (w : ℕ) : workgroupCount w = (w + 15) / 16 := by
  have h1 : (((w + 15) / 16 : ℕ) : ℚ) * 16 < (w : ℚ) + 16 := by
    have h : ((w + 15) / 16) * 16 < w + 16 := by omega
    exact_mod_cast h
  have h2 : (w : ℚ) ≤ (((w + 15) / 16 : ℕ) : ℚ) * 16 := by
    have h : w ≤ ((w + 15) / 16) * 16 := by omega
    exact_mod_cast h
  have hceil : ⌈(w : ℚ) / 16⌉ = (((w + 15) / 16 : ℕ) : ℤ) := by
    rw [Int.ceil_eq_iff, Int.cast_natCast]
    refine ⟨?_, ?_⟩
    · rw [lt_div_iff₀ (by norm_num : (0:ℚ) < 16)]
      linarith
    · rw [div_le_iff₀ (by norm_num : (0:ℚ) < 16)]
      linarith
  rw [workgroupCount, hceil, Int.toNat_natCast]

/-- C3: every tick appends exactly one compute dispatch, with workgroup
counts the ceiling of the grid's width and height divided by 16 in x and
y (as naturals, `(R + 15) / 16`) and 1 in z. -/
theorem c3_tick_dispatch_size (s : WaveSimulation) (e : List Dispatch) (R : ℕ)
    (hw : s.texture_a.width = R) (hh : s.texture_a.height = R) :
    ∃ d : Dispatch,
      (s.tick e).snd = e ++ [d] ∧
      d.x = (R + 15) / 16 ∧ d.y = (R + 15) / 16 ∧ d.z = 1 := by
  refine ⟨_, rfl, ?_, ?_, rfl⟩ <;>
    simp [WaveSimulation.tick, hw, hh, workgroupCount_eq]

/-- Witness for C3: an engine whose grids are 500 x 500 dispatches
exactly (32, 32, 1) workgroups. -/
theorem c3_tick_dispatch_size_witness :
    ∃ d : Dispatch,
      ((WaveSimulation.new 1 500).tick []).snd = [] ++ [d] ∧
      d.x = 32 ∧ d.y = 32 ∧ d.z = 1 := by
  have hw : (WaveSimulation.new 1 500).texture_a.width = 500 :=
    xzLength_eq 1 500 500 (by norm_num)
  have hh : (WaveSimulation.new 1 500).texture_a.height = 500 :=
    xzLength_eq 1 500 500 (by norm_num)
  obtain ⟨d, h1, h2, h3, h4⟩ :=
    c3_tick_dispatch_size (WaveSimulation.new 1 500) [] 500 hw hh
  exact ⟨d, h1, by omega, by omega, h4⟩

/-- C9: tick mutates only the parity counter (the textures and both bind
groups are untouched), and after any number of ticks the engine's
resources are exactly the ones built at initialization, never
reconstructed. -/
theorem c9_tick_mutates_only_parity (len : ℚ) (res : ℕ) (N : ℕ)
    (s : WaveSimulation) (e : List Dispatch) :
    (s.tick e).fst = { s with active := s.active + 1 } ∧
    (WaveSimulation.new len res).tickN N =
      { WaveSimulation.new len res with active := N } := by
  refine ⟨rfl, ?_⟩
  rw [tickN_spec]
  simp [WaveSimulation.new]

/-- Modelled from the spec: the side-length rule it states for the grid
textures, `physical_length x resolution_factor`, rounded to the nearest
integer and at least 1. -/
def specSideLength (len : ℚ) (res : ℕ) : ℕ :=
  max 1 (round (len * (res : ℚ))).toNat

/-- Counterexample to C4 as stated: at `physical_length = 3/4` and
`resolution_factor = 1` the code's truncating cast produces a 0-wide
texture, while the claimed round-to-nearest-at-least-1 rule gives 1. -/
theorem c4_rounding_counterexample :
    (createComputeTexture (3/4) 1 GridId.a).width = 0 ∧
    specSideLength (3/4) 1 = 1 ∧
    (createComputeTexture (3/4) 1 GridId.a).width ≠ specSideLength (3/4) 1 := by
  have h1 : (createComputeTexture (3/4) 1 GridId.a).width = 0 := by
    show xzLength (3/4) 1 = 0
    rw [xzLength]
    norm_num
  have h2 : specSideLength (3/4) 1 = 1 := by
    rw [specSideLength]
    norm_num [round_eq]
  exact ⟨h1, h2, by rw [h1, h2]; omega⟩

/-- C4 (amended): initialization allocates exactly two grid textures for
the two distinct grids, equally sized, square, in the 2-channel 32-bit
float format, whose side is `physical_length x resolution_factor`
truncated toward zero; resolution 10 with length 5.0 yields 50 x 50, and
the shipped constants (length 5.0, resolution 500) yield 2500 x 2500. -/
theorem c4_side_length_truncates (len : ℚ) (res : ℕ) :
    (WaveSimulation.new len res).texture_a.width = (⌊len * (res : ℚ)⌋).toNat ∧
    (WaveSimulation.new len res).texture_a.height =
      (WaveSimulation.new len res).texture_a.width ∧
    (WaveSimulation.new len res).texture_b.width =
      (WaveSimulation.new len res).texture_a.width ∧
    (WaveSimulation.new len res).texture_b.height =
      (WaveSimulation.new len res).texture_a.width ∧
    (WaveSimulation.new len res).texture_a.format = TexFormat.rg32Float ∧
    (WaveSimulation.new len res).texture_b.format = TexFormat.rg32Float ∧
    (WaveSimulation.new len res).texture_a.grid ≠
      (WaveSimulation.new len res).texture_b.grid ∧
    (WaveSimulation.new 5 10).texture_a.width = 50 ∧
    simNew.texture_a.width = 2500 := by
  refine ⟨rfl, rfl, rfl, rfl, rfl, rfl, by show GridId.a ≠ GridId.b; decide, ?_, ?_⟩
  · exact xzLength_eq 5 10 50 (by norm_num)
  · exact xzLength_eq SIMULATION_LENGTH SIMULATION_RESOLUTION 2500 (by norm_num [SIMULATION_LENGTH, SIMULATION_RESOLUTION])

/-- Entry types of a bind-group layout, as declared in `Pipelines::new`. -/
inductive LayoutEntryType
  | uniformBuffer
  | sampledFloatTexture2d (filterable : Bool)
  | filteringSampler
  | storageTexture2dWriteOnly (format : TexFormat)
deriving DecidableEq, Repr

/-- The bind-group layouts `Pipelines::new` creates, with their numbered
entries: the camera layout, the split read layout (sampled filterable
texture plus sampler) and the split write layout (write-only storage
texture). No combined read-write layout is created. -/
def pipelinesDeclaredLayouts : List (LayoutRef × List (ℕ × LayoutEntryType)) :=
  [(LayoutRef.cameraBindGroupLayout, [(0, LayoutEntryType.uniformBuffer)]),
   (LayoutRef.textureReadBindGroupLayout,
     [(0, LayoutEntryType.sampledFloatTexture2d true),
      (1, LayoutEntryType.filteringSampler)]),
   (LayoutRef.textureWriteBindGroupLayout,
     [(0, LayoutEntryType.storageTexture2dWriteOnly TexFormat.rg32Float)])]

/-- The bind-group layout slots of `Pipelines::simulation_pipeline_layout`,
the layout the compute pipeline is created with: slot 0 is the split read
layout, slot 1 the split write layout. -/
def simulationPipelineLayoutSlots : List LayoutRef :=
  [LayoutRef.textureReadBindGroupLayout, LayoutRef.textureWriteBindGroupLayout]

/-- C6 fails on the code: the layout the simulation engine's two bind
groups are created against (`pipelines.texture_read_write_bind_group_layout`,
a combined read-write layout) is neither of the compute pipeline's slot
layouts and is not declared by `Pipelines::new` at all, so the registry
uses the split variant while the engine assumes the combined variant. -/
theorem c6_bind_group_layout_not_declared :
    simNew.a_read_b_write_bind_group.layout ∉ simulationPipelineLayoutSlots ∧
    simNew.b_read_a_write_bind_group.layout ∉ simulationPipelineLayoutSlots ∧
    simNew.a_read_b_write_bind_group.layout ∉
      pipelinesDeclaredLayouts.map Prod.fst ∧
    simulationPipelineLayoutSlots ⊆ pipelinesDeclaredLayouts.map Prod.fst := by
  exact ⟨by decide, by decide, by decide, by decide⟩

/-- Bind groups referenced while recording a frame in `Renderer::render`. -/
inductive FrameBindGroup
  | cameraGroup
  | simulationGroup
deriving DecidableEq, Repr

/-- Events of one frame, in the order the code performs or records them. -/
inductive FrameEvent
  | acquireSurfaceTexture
  | writeCameraUniform
  | beginRenderPass (colorLoadIsClear : Bool) (hasDepth : Bool)
  | setBindGroup (slot : ℕ) (group : FrameBindGroup)
  | setRenderPipeline
  | setVertexBuffer
  | setIndexBuffer
  | draw (vertexCount instanceCount : ℕ)
  | drawIndexed (indexCount : ℕ)
  | computeDispatch
  | uiUpdateBuffers
  | uiDraw
  | submit (commandBufferCount : ℕ)
  | present
deriving DecidableEq, Repr

/-- The frame `Renderer::render` performs, in source order: acquire the
surface texture, write the camera uniform, record the main render pass
(color cleared, depth attached) that binds the camera group and the
triangle pipeline and draws three vertices, record the UI pass (color
loaded, not cleared), submit the single command buffer, present. -/
def rendererRenderEvents : List FrameEvent :=
  [FrameEvent.acquireSurfaceTexture,
   FrameEvent.writeCameraUniform,
   FrameEvent.beginRenderPass true true,
   FrameEvent.setBindGroup 0 FrameBindGroup.cameraGroup,
   FrameEvent.setRenderPipeline,
   FrameEvent.draw 3 1,
   FrameEvent.uiUpdateBuffers,
   FrameEvent.beginRenderPass false false,
   FrameEvent.uiDraw,
   FrameEvent.submit 1,
   FrameEvent.present]

/-- Modelled from the spec: the per-frame order the Frame Orchestrator is
claimed to perform — simulation tick first (recording the compute
dispatch), camera-uniform update, the main render pass binding the camera
uniform, the mesh vertex/index buffers and the engine's active binding
with an indexed draw over the full index range, the UI overlay pass
loading the same target, one submission, then present. The index count is
the full range of the generated mesh. -/
def specFrameEvents (indexCount : ℕ) : List FrameEvent :=
  [FrameEvent.computeDispatch,
   FrameEvent.writeCameraUniform,
   FrameEvent.beginRenderPass true true,
   FrameEvent.setBindGroup 0 FrameBindGroup.cameraGroup,
   FrameEvent.setVertexBuffer,
   FrameEvent.setIndexBuffer,
   FrameEvent.setBindGroup 1 FrameBindGroup.simulationGroup,
   FrameEvent.drawIndexed indexCount,
   FrameEvent.uiUpdateBuffers,
   FrameEvent.beginRenderPass false false,
   FrameEvent.uiDraw,
   FrameEvent.submit 1,
   FrameEvent.present]

/-- True when the event is part of consuming the simulation or mesh:
a compute dispatch, a simulation bind-group binding, or a mesh buffer
binding or indexed draw. -/
def usesSimulationOrMesh : FrameEvent → Bool
  | FrameEvent.computeDispatch => true
  | FrameEvent.setBindGroup _ FrameBindGroup.simulationGroup => true
  | FrameEvent.setVertexBuffer => true
  | FrameEvent.setIndexBuffer => true
  | FrameEvent.drawIndexed _ => true
  | _ => false

/-- C5 fails on the code: the frame recorded by `Renderer::render`
contains no compute dispatch, no mesh buffer binding, no simulation
bind-group and no indexed draw — every simulation- or mesh-consuming
event the claimed order requires is absent — although it does submit a
single batch, present last, and load (not clear) the UI pass's color
target. -/
theorem c5_render_frame_missing_simulation :
    rendererRenderEvents.countP (fun e => usesSimulationOrMesh e) = 0 ∧
    (specFrameEvents 1494006).countP (fun e => usesSimulationOrMesh e) = 5 ∧
    rendererRenderEvents.count (FrameEvent.submit 1) = 1 ∧
    rendererRenderEvents.getLast? = some FrameEvent.present ∧
    FrameEvent.beginRenderPass false false ∈ rendererRenderEvents := by
  refine ⟨?_, ?_, ?_, ?_, ?_⟩ <;> decide

/-- One vertex of the surface mesh (`SurfaceVertex` in `surface.rs`):
a world-space position and a uv, with the `f32` arithmetic modelled by
exact rationals. -/
structure SurfaceVertex where
  position : ℚ × ℚ × ℚ
  uv : ℚ × ℚ
deriving DecidableEq, Repr

/-- The `axis_vertices` iterator of `SurfaceMesh::new`: for each of `res`
steps, the pair of the uv coordinate `i / res` and the position
`(i / res) * len`. -/
def axisVertices (res : ℕ) (len : ℚ) : List (ℚ × ℚ) :=
  (List.range res).map
    (fun (i : ℕ) => ((i : ℚ) / (res : ℚ), ((i : ℚ) / (res : ℚ)) * len))

/-- The vertex list of `SurfaceMesh::new`: the product of the axis
iterator with itself (outer factor the x axis, inner factor the z axis),
mapped to vertices with position `(x, 0, z)` and uv `(uv_x, uv_z)`. -/
def surfaceVertices (res : ℕ) (len : ℚ) : List SurfaceVertex :=
  (axisVertices res len).flatMap (fun p =>
    (axisVertices res len).map (fun q =>
      { position := (p.2, 0, q.2), uv := (p.1, q.1) }))

/-- The index list of `SurfaceMesh::new`: for each quad (row, col) of the
`(res-1) x (res-1)` quad grid, the six corner indices of its two
triangles, with `row_offset = row * res`. -/
def surfaceIndices (res : ℕ) : List ℕ :=
  (List.range (res - 1)).flatMap (fun row =>
    (List.range (res - 1)).flatMap (fun col =>
      [row * res + col,
       row * res + res + col,
       row * res + col + 1,
       row * res + col + 1,
       row * res + res + col + 1,
       row * res + res + col]))

theorem length_flatMap_const {β : Type} (R m : ℕ) (f : ℕ → List β)
    (h : ∀ a, (f a).length = m) :
    ((List.range R).flatMap f).length = R * m := by
  simp [List.length_flatMap, Function.comp_def, h, List.map_const',
    List.sum_replicate, smul_eq_mul, Nat.mul_comm]

theorem getElem_flatMap_uniform {β : Type} (m : ℕ) (f : ℕ → List β)
    (h : ∀ a, (f a).length = m) (R i j : ℕ) (hi : i < R) (hj : j < m) :
    ((List.range R).flatMap f)[i * m + j]? = (f i)[j]? := by
  induction R with
  | zero => exact absurd hi (Nat.not_lt_zero i)
  | succ n ih =>
    rw [List.range_succ, List.flatMap_append]
    by_cases hin : i < n
    · have h1 : i * m + j < (i + 1) * m := by
        have hexp : (i + 1) * m = i * m + m := by ring
        omega
      have h2 : (i + 1) * m ≤ n * m := Nat.mul_le_mul_right m hin
      rw [List.getElem?_append_left
        (by rw [length_flatMap_const n m f h]; omega)]
      exact ih hin
    · have hieq : i = n := by omega
      subst hieq
      have hge : ((List.range i).flatMap f).length ≤ i * m + j := by
        rw [length_flatMap_const i m f h]
        omega
      rw [List.getElem?_append_right hge, length_flatMap_const i m f h]
      simp [List.flatMap_cons, List.flatMap_nil, Nat.add_sub_cancel_left]

theorem surfaceVertices_eq (res : ℕ) (len : ℚ) :
    surfaceVertices res len =
      (List.range res).flatMap (fun (i : ℕ) =>
        (List.range res).map (fun (j : ℕ) =>
          ({ position := ((i : ℚ) / (res : ℚ) * len, 0, (j : ℚ) / (res : ℚ) * len),
             uv := ((i : ℚ) / (res : ℚ), (j : ℚ) / (res : ℚ)) } : SurfaceVertex))) := by
  unfold surfaceVertices axisVertices
  rw [List.flatMap_map]
  simp only [List.map_map]
  rfl

/-- C7: the generated mesh has exactly `res * res` vertices and exactly
`6 * (res-1) * (res-1)` indices, and every generated index is strictly
below the vertex count. -/
theorem c7_mesh_counts_and_bounds (res : ℕ) (len : ℚ) (hres : 1 ≤ res) :
    (surfaceVertices res len).length = res * res ∧
    (surfaceIndices res).length = 6 * (res - 1) * (res - 1) ∧
    ∀ i ∈ surfaceIndices res, i < res * res := by
  refine ⟨?_, ?_, ?_⟩
  · rw [surfaceVertices_eq]
    exact length_flatMap_const res res _ (fun a => by simp)
  · rw [surfaceIndices]
    rw [length_flatMap_const (res - 1) ((res - 1) * 6)
      (fun row => (List.range (res - 1)).flatMap (fun col =>
        [row * res + col, row * res + res + col, row * res + col + 1,
         row * res + col + 1, row * res + res + col + 1, row * res + res + col]))
      (fun row => length_flatMap_const (res - 1) 6
        (fun col =>
          [row * res + col, row * res + res + col, row * res + col + 1,
           row * res + col + 1, row * res + res + col + 1, row * res + res + col])
        (fun col => rfl))]
    ring
  · intro i hi
    simp only [surfaceIndices, List.mem_flatMap, List.mem_range] at hi
    obtain ⟨row, hrow, col, hcol, hmem⟩ := hi
    have hr2 : row + 2 ≤ res := by omega
    have hc2 : col + 2 ≤ res := by omega
    have key : (row + 2) * res ≤ res * res := Nat.mul_le_mul_right res hr2
    have hexp : (row + 2) * res = row * res + 2 * res := by ring
    have key2 : row * res + 2 * res ≤ res * res := by omega
    simp only [List.mem_cons, List.not_mem_nil, or_false] at hmem
    rcases hmem with h | h | h | h | h | h <;> subst h <;> linarith

/-- Witness for C7: at resolution 10 the mesh has 100 vertices, 486
indices, and index 0 (which occurs in the list) is below 100. -/
theorem c7_mesh_counts_and_bounds_witness :
    (surfaceVertices 10 5).length = 100 ∧
    (surfaceIndices 10).length = 486 ∧
    0 < 100 := by
  have h := c7_mesh_counts_and_bounds 10 5 (by norm_num)
  refine ⟨by rw [h.1], by rw [h.2.1], ?_⟩
  have h0 : (0 : ℕ) ∈ surfaceIndices 10 := by decide
  have := h.2.2 0 h0
  omega

/-- C8: the mesh vertices are generated in row-major order: the vertex at
linear index `i * res + j` has position `((i/res) * len, 0, (j/res) * len)`
and uv `(i/res, j/res)`; each uv coordinate lies in `[0, 1)` and each
position coordinate lies in `[0, len)`, so the axis values are the `res`
evenly spaced multiples of `len / res` starting at 0. -/
theorem c8_vertex_positions_row_major (res : ℕ) (len : ℚ) (i j : ℕ)
    (hi : i < res) (hj : j < res) (hlen : 0 < len) :
    (surfaceVertices res len)[i * res + j]? =
      some { position := ((i : ℚ) / (res : ℚ) * len, 0, (j : ℚ) / (res : ℚ) * len),
             uv := ((i : ℚ) / (res : ℚ), (j : ℚ) / (res : ℚ)) } ∧
    0 ≤ (i : ℚ) / (res : ℚ) ∧ (i : ℚ) / (res : ℚ) < 1 ∧
    0 ≤ (i : ℚ) / (res : ℚ) * len ∧ (i : ℚ) / (res : ℚ) * len < len := by
  have hres0 : (0 : ℚ) < (res : ℚ) := by
    exact_mod_cast (show 0 < res by omega)
  have huv0 : 0 ≤ (i : ℚ) / (res : ℚ) :=
    div_nonneg (Nat.cast_nonneg i) (le_of_lt hres0)
  have huv1 : (i : ℚ) / (res : ℚ) < 1 :=
    (div_lt_one hres0).mpr (by exact_mod_cast hi)
  refine ⟨?_, huv0, huv1, mul_nonneg huv0 (le_of_lt hlen), ?_⟩
  · rw [surfaceVertices_eq,
      getElem_flatMap_uniform res _ (fun a => by simp) res i j hi hj]
    simp [List.getElem?_map, List.getElem?_range hj]
  · calc (i : ℚ) / (res : ℚ) * len < 1 * len :=
          mul_lt_mul_of_pos_right huv1 hlen
      _ = len := one_mul len

/-- Witness for C8: at resolution 10 and length 5 the first vertex has
uv (0, 0) at position (0, 0, 0), and the last vertex (linear index 99)
has uv (9/10, 9/10), which is below 1, at position (9/2, 0, 9/2). -/
theorem c8_vertex_positions_row_major_witness :
    (surfaceVertices 10 5)[0]? =
      some { position := (0, 0, 0), uv := (0, 0) } ∧
    (surfaceVertices 10 5)[99]? =
      some { position := (9/2, 0, 9/2), uv := (9/10, 9/10) } ∧
    (9 : ℚ) / 10 < 1 := by
  have h0 := (c8_vertex_positions_row_major 10 5 0 0 (by norm_num) (by norm_num)
    (by norm_num)).1
  have h9 := (c8_vertex_positions_row_major 10 5 9 9 (by norm_num) (by norm_num)
    (by norm_num)).1
  norm_num at h0 h9
  exact ⟨h0, h9, by norm_num⟩

end WaveSim
